import Mathlib

/-!
Verification of the dark-mode manager (`src/lib/dark-mode.svelte.ts`).

The TypeScript class `DarkMode` keeps two reactive fields, `#modeStore`
(the user's explicit choice, `undefined` when unset) and `#prefersStore`
(the OS preference, `undefined` when unknown), plus the constant
`#defaultMode = 'light'`.  It resolves the active mode by precedence,
mirrors it onto the document root (a `dark` class and a `color-scheme`
style), and persists the explicit choice under the localStorage key
`dark-mode`.

We embed the class shallowly: `Mode` is the two-valued theme, the TS
`ThemeMode` (`'light' | 'dark' | undefined`) becomes `Option Mode`, the
document root becomes a `DOMState` record with exactly the two mutated
properties, and localStorage's `dark-mode` entry becomes an
`Option String`.  Every method becomes a total Lean function on
`DarkModeState`; the `isBrowser` guard is a boolean field (in the source
it is the `DEV`/`BROWSER` environment constant).
-/

/-- The two concrete theme modes; the TS union `'light' | 'dark'`. -/
inductive Mode where
  | light
  | dark
deriving DecidableEq, Repr

/-- The slice of the document root the class mutates:
`classList.toggle('dark', isDark)` and `style.colorScheme`. -/
structure DOMState where
  darkClass : Bool
  colorScheme : String
deriving DecidableEq, Repr

/-- The full state of a `DarkMode` instance together with the parts of the
environment it reads and writes. `storage` is the localStorage entry under
the key `dark-mode` (`none` = key absent). -/
structure DarkModeState where
  defaultMode : Mode
  modeStore : Option Mode
  prefersStore : Option Mode
  isBrowser : Bool
  storage : Option String
  dom : DOMState
deriving DecidableEq, Repr

/-- JS `toLowerCase`, embedded as character-wise lowering (the ASCII range
is all that matters for the two accepted tokens). -/
def toLowerStr (s : String) : String := String.mk (s.data.map Char.toLower)

/-- `DarkMode.load`: read the `dark-mode` entry; outside a browser return
`undefined`; otherwise accept (after `toLowerCase`) exactly the tokens
`light` and `dark`.  The TS `if (localStoreItem)` truthiness test makes the
empty string fall through to `undefined` as well. -/
def load (isBrowser : Bool) (item : Option String) : Option Mode :=
  if isBrowser = false then none
  else
    match item with
    | none => none
    | some raw =>
      if raw = "" then none
      else
        let lower := toLowerStr raw
        if lower = "light" then some Mode.light
        else if lower = "dark" then some Mode.dark
        else none

/-- `DarkMode.getInitialMode`: re-checks the value returned by `load` and
passes it through. -/
def getInitialMode (isBrowser : Bool) (item : Option String) : Option Mode :=
  match load isBrowser item with
  | some Mode.light => some Mode.light
  | some Mode.dark => some Mode.dark
  | none => none

/-- `DarkMode.getPrefersMode`: query the two media booleans; the dark query
is checked first, the light query only when the dark one is false. -/
def getPrefersMode (isBrowser prefersDark prefersLight : Bool) : Option Mode :=
  if isBrowser = false then none
  else if prefersDark then some Mode.dark
  else if prefersLight then some Mode.light
  else none

/-- The `mode` getter: `this.#modeStore ?? this.#prefersStore ?? this.#defaultMode`. -/
def DarkModeState.mode (s : DarkModeState) : Mode :=
  s.modeStore.getD (s.prefersStore.getD s.defaultMode)

/-- `DarkMode.updateDOM`: no-op outside a browser, otherwise set the `dark`
class to `mode === 'dark'` and `colorScheme` to the matching token. -/
def DarkModeState.updateDOM (s : DarkModeState) : DarkModeState :=
  if s.isBrowser = false then s
  else
    let isDark := s.mode = Mode.dark
    { s with dom :=
        { darkClass := decide isDark
          colorScheme := if isDark then "dark" else "light" } }

/-- `DarkMode.store`: no-op outside a browser; write the literal token when
`#modeStore` is `light`/`dark`, remove the entry otherwise. -/
def DarkModeState.store (s : DarkModeState) : DarkModeState :=
  if s.isBrowser = false then s
  else
    match s.modeStore with
    | some Mode.light => { s with storage := some "light" }
    | some Mode.dark => { s with storage := some "dark" }
    | none => { s with storage := none }

/-- The `mode` setter: assign `#modeStore`, then `updateDOM`, then `store`. -/
def DarkModeState.setMode (s : DarkModeState) (m : Option Mode) : DarkModeState :=
  ({ s with modeStore := m }).updateDOM.store

/-- `DarkMode.toggle`: flip `#modeStore` when set; when `undefined`, set it
to `dark` only under the guard `#defaultMode === 'light'` (the resolved
mode is not consulted); then `updateDOM` and `store`. -/
def DarkModeState.toggle (s : DarkModeState) : DarkModeState :=
  let s1 :=
    match s.modeStore with
    | some Mode.light => { s with modeStore := some Mode.dark }
    | some Mode.dark => { s with modeStore := some Mode.light }
    | none =>
      if s.defaultMode = Mode.light then { s with modeStore := some Mode.dark }
      else s
  s1.updateDOM.store

/-- The `(prefers-color-scheme: dark)` change listener registered in the
constructor: `#prefersStore = e.matches ? 'dark' : 'light'` then
`updateDOM`.  It is only ever registered (hence only ever fires) when
`isBrowser` is true. -/
def DarkModeState.changeEvent (s : DarkModeState) (eMatches : Bool) : DarkModeState :=
  ({ s with prefersStore := some (if eMatches then Mode.dark else Mode.light) }).updateDOM

/-- The constructor: field initializers read storage (`getInitialMode`) and
the media queries (`getPrefersMode`), `#defaultMode` is `'light'`, and the
constructor body runs `updateDOM`.  It never writes to storage. -/
def construct (isBrowser prefersDark prefersLight : Bool)
    (storage0 : Option String) (dom0 : DOMState) : DarkModeState :=
  DarkModeState.updateDOM
    { defaultMode := Mode.light
      modeStore := getInitialMode isBrowser storage0
      prefersStore := getPrefersMode isBrowser prefersDark prefersLight
      isBrowser := isBrowser
      storage := storage0
      dom := dom0 }

/-- The public operations a client can invoke after construction, plus the
OS change notification delivered by the environment. -/
inductive Op where
  | setMode (m : Option Mode)
  | toggle
  | change (eMatches : Bool)

/-- Apply one operation to the state. -/
def DarkModeState.applyOp (s : DarkModeState) : Op → DarkModeState
  | Op.setMode m => s.setMode m
  | Op.toggle => s.toggle
  | Op.change b => s.changeEvent b

/-- Apply a sequence of operations from left to right. -/
def DarkModeState.applyOps (s : DarkModeState) : List Op → DarkModeState
  | [] => s
  | op :: ops => (s.applyOp op).applyOps ops

/-- A fresh DOM root before the class runs, as in a page load. -/
def domInit : DOMState := { darkClass := false, colorScheme := "" }

/-- Browser state constructed with no persisted entry and an OS that
reports dark (`prefers-color-scheme: dark` matches). -/
def s_unset_dark : DarkModeState := construct true true false none domInit

/-- Browser state constructed with a malformed persisted entry. -/
def s_invalid : DarkModeState := construct true false false (some "invalid") domInit

/-- Encoding the `store` method applies to the explicit choice: the literal
lowercase token for `light`/`dark`, key removal for `undefined`. -/
def encodeChoice : Option Mode → Option String
  | some Mode.light => some "light"
  | some Mode.dark => some "dark"
  | none => none

/-- The document state `updateDOM` writes for a given resolved mode. -/
def domFor (m : Mode) : DOMState :=
  { darkClass := decide (m = Mode.dark)
    colorScheme := if m = Mode.dark then "dark" else "light" }

theorem Mode.light_or_dark (m : Mode) : m = Mode.light ∨ m = Mode.dark := by
  cases m <;> simp

theorem mode_def (s : DarkModeState) :
    s.mode = s.modeStore.getD (s.prefersStore.getD s.defaultMode) := rfl

theorem updateDOM_modeStore (s : DarkModeState) :
    s.updateDOM.modeStore = s.modeStore := by
  unfold DarkModeState.updateDOM; split <;> rfl

theorem updateDOM_prefersStore (s : DarkModeState) :
    s.updateDOM.prefersStore = s.prefersStore := by
  unfold DarkModeState.updateDOM; split <;> rfl

theorem updateDOM_defaultMode (s : DarkModeState) :
    s.updateDOM.defaultMode = s.defaultMode := by
  unfold DarkModeState.updateDOM; split <;> rfl

theorem updateDOM_isBrowser (s : DarkModeState) :
    s.updateDOM.isBrowser = s.isBrowser := by
  unfold DarkModeState.updateDOM; split <;> rfl

theorem updateDOM_storage (s : DarkModeState) :
    s.updateDOM.storage = s.storage := by
  unfold DarkModeState.updateDOM; split <;> rfl

theorem updateDOM_mode (s : DarkModeState) : s.updateDOM.mode = s.mode := by
  rw [mode_def, mode_def, updateDOM_modeStore, updateDOM_prefersStore,
    updateDOM_defaultMode]

theorem updateDOM_of_not_browser (s : DarkModeState) (h : s.isBrowser = false) :
    s.updateDOM = s := by
  unfold DarkModeState.updateDOM; simp [h]

theorem updateDOM_dom_browser (s : DarkModeState) (h : s.isBrowser = true) :
    s.updateDOM.dom = domFor s.mode := by
  unfold DarkModeState.updateDOM domFor; simp [h]

theorem store_modeStore (s : DarkModeState) :
    s.store.modeStore = s.modeStore := by
  unfold DarkModeState.store
  split
  · rfl
  · split <;> rfl

theorem store_prefersStore (s : DarkModeState) :
    s.store.prefersStore = s.prefersStore := by
  unfold DarkModeState.store
  split
  · rfl
  · split <;> rfl

theorem store_defaultMode (s : DarkModeState) :
    s.store.defaultMode = s.defaultMode := by
  unfold DarkModeState.store
  split
  · rfl
  · split <;> rfl

theorem store_isBrowser (s : DarkModeState) :
    s.store.isBrowser = s.isBrowser := by
  unfold DarkModeState.store
  split
  · rfl
  · split <;> rfl

theorem store_dom (s : DarkModeState) : s.store.dom = s.dom := by
  unfold DarkModeState.store
  split
  · rfl
  · split <;> rfl

theorem store_mode (s : DarkModeState) : s.store.mode = s.mode := by
  rw [mode_def, mode_def, store_modeStore, store_prefersStore, store_defaultMode]

theorem store_of_not_browser (s : DarkModeState) (h : s.isBrowser = false) :
    s.store = s := by
  unfold DarkModeState.store; simp [h]

theorem store_storage_browser (s : DarkModeState) (h : s.isBrowser = true) :
    s.store.storage = encodeChoice s.modeStore := by
  unfold DarkModeState.store encodeChoice
  simp only [h]
  rcases hm : s.modeStore with _ | (_ | _) <;> simp [hm]

theorem setMode_modeStore (s : DarkModeState) (m : Option Mode) :
    (s.setMode m).modeStore = m := by
  unfold DarkModeState.setMode
  rw [store_modeStore, updateDOM_modeStore]

theorem setMode_prefersStore (s : DarkModeState) (m : Option Mode) :
    (s.setMode m).prefersStore = s.prefersStore := by
  unfold DarkModeState.setMode
  rw [store_prefersStore, updateDOM_prefersStore]

theorem setMode_defaultMode (s : DarkModeState) (m : Option Mode) :
    (s.setMode m).defaultMode = s.defaultMode := by
  unfold DarkModeState.setMode
  rw [store_defaultMode, updateDOM_defaultMode]

theorem setMode_isBrowser (s : DarkModeState) (m : Option Mode) :
    (s.setMode m).isBrowser = s.isBrowser := by
  unfold DarkModeState.setMode
  rw [store_isBrowser, updateDOM_isBrowser]

theorem setMode_storage_browser (s : DarkModeState) (m : Option Mode)
    (h : s.isBrowser = true) :
    (s.setMode m).storage = encodeChoice m := by
  unfold DarkModeState.setMode
  rw [store_storage_browser _ (by rw [updateDOM_isBrowser]; exact h),
    updateDOM_modeStore]

theorem setMode_dom_browser (s : DarkModeState) (m : Option Mode)
    (h : s.isBrowser = true) :
    (s.setMode m).dom = domFor (s.setMode m).mode := by
  unfold DarkModeState.setMode
  rw [store_dom, store_mode, updateDOM_mode,
    updateDOM_dom_browser _ (by exact h)]

theorem toggle_modeStore (s : DarkModeState) :
    s.toggle.modeStore =
      (match s.modeStore with
       | some Mode.light => some Mode.dark
       | some Mode.dark => some Mode.light
       | none =>
         if s.defaultMode = Mode.light then some Mode.dark else none) := by
  unfold DarkModeState.toggle
  simp only [store_modeStore, updateDOM_modeStore]
  rcases hm : s.modeStore with _ | (_ | _) <;> simp [hm]
  split <;> simp [hm]

theorem toggle_prefersStore (s : DarkModeState) :
    s.toggle.prefersStore = s.prefersStore := by
  unfold DarkModeState.toggle
  simp only [store_prefersStore, updateDOM_prefersStore]
  rcases hm : s.modeStore with _ | (_ | _) <;> simp [hm]
  split <;> rfl

theorem toggle_defaultMode (s : DarkModeState) :
    s.toggle.defaultMode = s.defaultMode := by
  unfold DarkModeState.toggle
  simp only [store_defaultMode, updateDOM_defaultMode]
  rcases hm : s.modeStore with _ | (_ | _) <;> simp [hm]
  split <;> rfl

theorem toggle_isBrowser (s : DarkModeState) :
    s.toggle.isBrowser = s.isBrowser := by
  unfold DarkModeState.toggle
  simp only [store_isBrowser, updateDOM_isBrowser]
  rcases hm : s.modeStore with _ | (_ | _) <;> simp [hm]
  split <;> rfl

theorem toggle_storage_browser (s : DarkModeState) (h : s.isBrowser = true) :
    s.toggle.storage = encodeChoice s.toggle.modeStore := by
  unfold DarkModeState.toggle
  have hb : ∀ t : DarkModeState, t.isBrowser = s.isBrowser →
      t.updateDOM.store.storage = encodeChoice t.updateDOM.store.modeStore := by
    intro t ht
    rw [store_storage_browser _ (by rw [updateDOM_isBrowser, ht]; exact h),
      store_modeStore]
  rcases hm : s.modeStore with _ | (_ | _)
  · by_cases hd : s.defaultMode = Mode.light
    · rw [if_pos hd]; exact hb _ rfl
    · rw [if_neg hd]; exact hb _ rfl
  · exact hb _ rfl
  · exact hb _ rfl

theorem toggle_dom_browser (s : DarkModeState) (h : s.isBrowser = true) :
    s.toggle.dom = domFor s.toggle.mode := by
  unfold DarkModeState.toggle
  have hb : ∀ t : DarkModeState, t.isBrowser = s.isBrowser →
      t.updateDOM.store.dom = domFor t.updateDOM.store.mode := by
    intro t ht
    rw [store_dom, store_mode, updateDOM_mode,
      updateDOM_dom_browser _ (by rw [ht]; exact h)]
  rcases hm : s.modeStore with _ | (_ | _)
  · by_cases hd : s.defaultMode = Mode.light
    · rw [if_pos hd]; exact hb _ rfl
    · rw [if_neg hd]; exact hb _ rfl
  · exact hb _ rfl
  · exact hb _ rfl

theorem changeEvent_modeStore (s : DarkModeState) (b : Bool) :
    (s.changeEvent b).modeStore = s.modeStore := by
  unfold DarkModeState.changeEvent
  rw [updateDOM_modeStore]

theorem changeEvent_prefersStore (s : DarkModeState) (b : Bool) :
    (s.changeEvent b).prefersStore =
      some (if b then Mode.dark else Mode.light) := by
  unfold DarkModeState.changeEvent
  rw [updateDOM_prefersStore]

theorem changeEvent_defaultMode (s : DarkModeState) (b : Bool) :
    (s.changeEvent b).defaultMode = s.defaultMode := by
  unfold DarkModeState.changeEvent
  rw [updateDOM_defaultMode]

theorem changeEvent_isBrowser (s : DarkModeState) (b : Bool) :
    (s.changeEvent b).isBrowser = s.isBrowser := by
  unfold DarkModeState.changeEvent
  rw [updateDOM_isBrowser]

theorem changeEvent_storage (s : DarkModeState) (b : Bool) :
    (s.changeEvent b).storage = s.storage := by
  unfold DarkModeState.changeEvent
  rw [updateDOM_storage]

theorem changeEvent_dom_browser (s : DarkModeState) (b : Bool)
    (h : s.isBrowser = true) :
    (s.changeEvent b).dom = domFor (s.changeEvent b).mode := by
  unfold DarkModeState.changeEvent
  rw [updateDOM_mode, updateDOM_dom_browser _ (by exact h)]

theorem construct_modeStore (ib pd pl : Bool) (st0 : Option String)
    (d0 : DOMState) :
    (construct ib pd pl st0 d0).modeStore = getInitialMode ib st0 := by
  unfold construct
  rw [updateDOM_modeStore]

theorem construct_prefersStore (ib pd pl : Bool) (st0 : Option String)
    (d0 : DOMState) :
    (construct ib pd pl st0 d0).prefersStore = getPrefersMode ib pd pl := by
  unfold construct
  rw [updateDOM_prefersStore]

theorem construct_defaultMode (ib pd pl : Bool) (st0 : Option String)
    (d0 : DOMState) :
    (construct ib pd pl st0 d0).defaultMode = Mode.light := by
  unfold construct
  rw [updateDOM_defaultMode]

theorem construct_isBrowser (ib pd pl : Bool) (st0 : Option String)
    (d0 : DOMState) :
    (construct ib pd pl st0 d0).isBrowser = ib := by
  unfold construct
  rw [updateDOM_isBrowser]

theorem construct_storage (ib pd pl : Bool) (st0 : Option String)
    (d0 : DOMState) :
    (construct ib pd pl st0 d0).storage = st0 := by
  unfold construct
  rw [updateDOM_storage]

theorem construct_dom_browser (pd pl : Bool) (st0 : Option String)
    (d0 : DOMState) :
    (construct true pd pl st0 d0).dom =
      domFor (construct true pd pl st0 d0).mode := by
  unfold construct
  rw [updateDOM_mode, updateDOM_dom_browser _ (by exact rfl)]

theorem getInitialMode_eq_load (ib : Bool) (item : Option String) :
    getInitialMode ib item = load ib item := by
  unfold getInitialMode
  rcases h : load ib item with _ | (_ | _) <;> simp [h]

/-- Browser state constructed with no persisted entry and no OS preference
(neither media query matches). -/
def s_fresh : DarkModeState := construct true false false none domInit

/-- Claim C1: for every ExplicitChoice and OsPreference, the `mode` getter
returns ExplicitChoice when it is set, else OsPreference when it is set,
else the default `light`; the result is always exactly light or dark. -/
theorem C1_mode_precedence (s : DarkModeState)
    (h : s.defaultMode = Mode.light) :
    s.mode =
      (match s.modeStore with
       | some m => m
       | none =>
         match s.prefersStore with
         | some p => p
         | none => Mode.light)
    ∧ (s.mode = Mode.light ∨ s.mode = Mode.dark) := by
  constructor
  · rw [mode_def, h]
    rcases hm : s.modeStore with _ | m <;>
      rcases hp : s.prefersStore with _ | p <;> simp
  · exact Mode.light_or_dark s.mode

/-- Witness for C1 at the state built with no stored entry and an OS that
prefers dark. -/
theorem C1_mode_precedence_witness :
    s_unset_dark.defaultMode = Mode.light ∧
    (s_unset_dark.mode =
      (match s_unset_dark.modeStore with
       | some m => m
       | none =>
         match s_unset_dark.prefersStore with
         | some p => p
         | none => Mode.light)
    ∧ (s_unset_dark.mode = Mode.light ∨ s_unset_dark.mode = Mode.dark)) :=
  ⟨by decide, C1_mode_precedence s_unset_dark (by decide)⟩

/-- Claim C2 fails on the code: with ExplicitChoice unset and OsPreference
dark the resolved mode is dark, so the claim demands ExplicitChoice light
after `toggle`, but the code sets it to dark (the branch for an unset
`#modeStore` consults `#defaultMode`, not the resolved mode). -/
theorem C2_toggle_counterexample :
    s_unset_dark.modeStore = none ∧
    s_unset_dark.mode = Mode.dark ∧
    s_unset_dark.toggle.modeStore = some Mode.dark ∧
    ¬ s_unset_dark.toggle.modeStore = some Mode.light := by decide

/-- Claim C2 (amended): `toggle` flips a set ExplicitChoice; when
ExplicitChoice is unset it becomes dark because the default mode is light —
OsPreference is never consulted — and `toggle` never leaves ExplicitChoice
unset. -/
theorem C2_toggle_amended (s : DarkModeState)
    (h : s.defaultMode = Mode.light) :
    s.toggle.modeStore =
      (match s.modeStore with
       | some Mode.light => some Mode.dark
       | some Mode.dark => some Mode.light
       | none => some Mode.dark)
    ∧ s.toggle.modeStore ≠ none := by
  rw [toggle_modeStore, h]
  constructor
  · rcases hm : s.modeStore with _ | (_ | _) <;> simp
  · rcases hm : s.modeStore with _ | (_ | _) <;> simp

/-- Witness for the amended C2 at the state with ExplicitChoice unset and
OsPreference dark. -/
theorem C2_toggle_amended_witness :
    s_unset_dark.toggle.modeStore = some Mode.dark ∧
    s_unset_dark.toggle.modeStore ≠ none := by
  have h := C2_toggle_amended s_unset_dark (by decide)
  exact ⟨by decide, h.2⟩

/-- Claim C3 fails on the code: starting from ExplicitChoice unset and
OsPreference dark, `mode` is dark before toggling but light after two
`toggle` calls (the first toggle jumps to explicit dark, the second to
light). -/
theorem C3_double_toggle_counterexample :
    s_unset_dark.mode = Mode.dark ∧
    s_unset_dark.toggle.toggle.mode = Mode.light ∧
    ¬ s_unset_dark.toggle.toggle.mode = s_unset_dark.mode := by decide

/-- Claim C3 (amended): two consecutive `toggle` calls return `mode` to its
pre-toggle value for every starting state except ExplicitChoice unset with
OsPreference dark; and in a browser context the persisted entry is present
after the first toggle. -/
theorem C3_double_toggle_amended (s : DarkModeState)
    (h : s.defaultMode = Mode.light) :
    (¬ (s.modeStore = none ∧ s.prefersStore = some Mode.dark) →
      s.toggle.toggle.mode = s.mode)
    ∧ (s.isBrowser = true → s.toggle.storage ≠ none) := by
  constructor
  · intro hx
    simp only [mode_def, toggle_modeStore, toggle_prefersStore,
      toggle_defaultMode, h]
    rcases hm : s.modeStore with _ | (_ | _) <;>
      rcases hp : s.prefersStore with _ | (_ | _)
    all_goals try simp
    exact absurd ⟨hm, hp⟩ hx
  · intro hb
    rw [toggle_storage_browser _ hb, toggle_modeStore, h]
    rcases hm : s.modeStore with _ | (_ | _) <;> simp [encodeChoice]

/-- Witness for the amended C3 at the fresh browser state (no stored entry,
no OS preference). -/
theorem C3_double_toggle_amended_witness :
    s_fresh.toggle.toggle.mode = s_fresh.mode ∧
    s_fresh.toggle.storage ≠ none :=
  ⟨(C3_double_toggle_amended s_fresh (by decide)).1 (by decide),
   (C3_double_toggle_amended s_fresh (by decide)).2 (by decide)⟩

/-- Claim C4 fails on the code: when both media booleans are true the
OS-preference read returns dark (the dark query is checked first), not
unset. -/
theorem C4_prefers_counterexample :
    getPrefersMode true true true = some Mode.dark ∧
    ¬ getPrefersMode true true true = none := by decide

/-- Claim C4 (amended): in a browser the OS-preference read returns dark
whenever the dark boolean is true (even if the light boolean is also true),
else light when the light boolean is true, else unset. -/
theorem C4_prefers_amended (pd pl : Bool) :
    getPrefersMode true pd pl =
      (if pd then some Mode.dark
       else if pl then some Mode.light
       else none) := by
  cases pd <;> cases pl <;> rfl

/-- Claim C5 fails on the code: construction never writes storage, so with a
malformed pre-existing entry (`"invalid"`) ExplicitChoice is unset while the
persisted entry is still present. -/
theorem C5_storage_counterexample :
    s_invalid.modeStore = none ∧
    s_invalid.storage = some "invalid" ∧
    ¬ s_invalid.storage = none := by decide

/-- Claim C5 (amended): in a browser context the persisted entry equals the
lowercase token of ExplicitChoice — absent exactly when it is unset — after
every `set mode` and `toggle`; after construction this holds provided the
pre-existing entry was absent or exactly `light`/`dark`, since construction
itself never writes storage and a malformed or non-lowercase pre-existing
entry survives until the first mutation. -/
theorem C5_storage_invariant (s : DarkModeState) (m : Option Mode)
    (pd pl : Bool) (st0 : Option String) (d0 : DOMState)
    (hb : s.isBrowser = true)
    (h0 : st0 = none ∨ st0 = some "light" ∨ st0 = some "dark") :
    (s.setMode m).storage = encodeChoice (s.setMode m).modeStore
    ∧ s.toggle.storage = encodeChoice s.toggle.modeStore
    ∧ (construct true pd pl st0 d0).storage =
        encodeChoice (construct true pd pl st0 d0).modeStore := by
  refine ⟨?_, toggle_storage_browser s hb, ?_⟩
  · rw [setMode_storage_browser _ _ hb, setMode_modeStore]
  · rw [construct_storage, construct_modeStore, getInitialMode_eq_load]
    rcases h0 with h0 | h0 | h0 <;> subst h0 <;> decide

/-- Witness for the amended C5 at the fresh browser state. -/
theorem C5_storage_invariant_witness :
    (s_fresh.setMode (some Mode.dark)).storage =
      encodeChoice (s_fresh.setMode (some Mode.dark)).modeStore
    ∧ s_fresh.toggle.storage = encodeChoice s_fresh.toggle.modeStore
    ∧ (construct true false false none domInit).storage =
        encodeChoice (construct true false false none domInit).modeStore :=
  C5_storage_invariant s_fresh (some Mode.dark) false false none domInit
    (by decide) (Or.inl rfl)

/-- The DOM consistency predicate of invariant I4: the `dark` class is
present exactly when the resolved mode is dark, and the `color-scheme`
style carries the matching token. -/
def domConsistent (s : DarkModeState) : Prop :=
  (s.dom.darkClass = true ↔ s.mode = Mode.dark)
  ∧ s.dom.colorScheme = (if s.mode = Mode.dark then "dark" else "light")

theorem domConsistent_of_domFor (t : DarkModeState)
    (h : t.dom = domFor t.mode) : domConsistent t := by
  unfold domConsistent
  rw [h]
  unfold domFor
  constructor
  · simp
  · rfl

/-- Claim C6: in a browser context, after construction and after every
mutation (`set mode`, `toggle`, OS change notification) the root element
carries the `dark` class exactly when the resolved mode is dark and its
`color-scheme` style equals `dark`/`light` accordingly; the operation
itself already produces a state satisfying the predicate, i.e. the
side-effect lands in the same synchronous step. -/
theorem C6_dom_invariant (s : DarkModeState) (m : Option Mode)
    (b pd pl : Bool) (st0 : Option String) (d0 : DOMState)
    (hb : s.isBrowser = true) :
    domConsistent (construct true pd pl st0 d0)
    ∧ domConsistent (s.setMode m)
    ∧ domConsistent s.toggle
    ∧ domConsistent (s.changeEvent b) :=
  ⟨domConsistent_of_domFor _ (construct_dom_browser pd pl st0 d0),
   domConsistent_of_domFor _ (setMode_dom_browser s m hb),
   domConsistent_of_domFor _ (toggle_dom_browser s hb),
   domConsistent_of_domFor _ (changeEvent_dom_browser s b hb)⟩

/-- Witness for C6 at the state with ExplicitChoice unset and OsPreference
dark. -/
theorem C6_dom_invariant_witness :
    s_unset_dark.isBrowser = true ∧
    (domConsistent (construct true false true (some "light") domInit)
    ∧ domConsistent (s_unset_dark.setMode (some Mode.dark))
    ∧ domConsistent s_unset_dark.toggle
    ∧ domConsistent (s_unset_dark.changeEvent false)) :=
  ⟨by decide,
   C6_dom_invariant s_unset_dark (some Mode.dark) false false true
     (some "light") domInit (by decide)⟩

/-- Claim C7: at construction the persistence read case-folds the stored
string and accepts exactly the tokens `light` and `dark`; `"DARK"` yields
an explicit dark choice, while the empty string, `"null"` and arbitrary
text behave exactly like an absent entry. -/
theorem C7_load_tokens (raw : String) :
    getInitialMode true (some raw) =
      (if toLowerStr raw = "light" then some Mode.light
       else if toLowerStr raw = "dark" then some Mode.dark
       else none)
    ∧ getInitialMode true none = none
    ∧ (construct true false false (some "DARK") domInit).modeStore =
        some Mode.dark
    ∧ getInitialMode true (some "") = none
    ∧ getInitialMode true (some "null") = none
    ∧ getInitialMode true (some "invalid") = none := by
  refine ⟨?_, rfl, ?_, by decide, by decide, by decide⟩
  · rw [getInitialMode_eq_load]
    unfold load
    by_cases he : raw = ""
    · subst he; decide
    · simp [he]
  · rw [construct_modeStore]; decide

/-- Non-browser state constructed with no persisted entry, as in
server-side rendering. -/
def s_server : DarkModeState := construct false false false none domInit

/-- Claim C8: without a display/environment context every display-applying
operation, environment query and persistence access is a no-op or yields
absent/unset (all embedded functions are total, so nothing can throw), and
the in-memory `mode` getter still follows the precedence rule. -/
theorem C8_nonbrowser (s : DarkModeState) (item st0 : Option String)
    (pd pl : Bool) (d0 : DOMState)
    (hb : s.isBrowser = false) (h : s.defaultMode = Mode.light) :
    s.updateDOM = s
    ∧ getPrefersMode false pd pl = none
    ∧ load false item = none
    ∧ s.store = s
    ∧ (construct false pd pl st0 d0).storage = st0
    ∧ (construct false pd pl st0 d0).dom = d0
    ∧ (construct false pd pl st0 d0).mode = Mode.light
    ∧ s.mode =
      (match s.modeStore with
       | some m => m
       | none =>
         match s.prefersStore with
         | some p => p
         | none => Mode.light) := by
  refine ⟨updateDOM_of_not_browser s hb, rfl, rfl,
    store_of_not_browser s hb, construct_storage false pd pl st0 d0, ?_, rfl, ?_⟩
  · unfold construct
    rw [updateDOM_of_not_browser _ rfl]
  · rw [mode_def, h]
    rcases hm : s.modeStore with _ | m <;>
      rcases hp : s.prefersStore with _ | p <;> simp

/-- Witness for C8 at the non-browser constructed state. -/
theorem C8_nonbrowser_witness :
    s_server.isBrowser = false ∧
    (s_server.updateDOM = s_server
    ∧ getPrefersMode false false false = none
    ∧ load false none = none
    ∧ s_server.store = s_server
    ∧ (construct false false false none domInit).storage = none
    ∧ (construct false false false none domInit).dom = domInit
    ∧ (construct false false false none domInit).mode = Mode.light
    ∧ s_server.mode =
      (match s_server.modeStore with
       | some m => m
       | none =>
         match s_server.prefersStore with
         | some p => p
         | none => Mode.light)) :=
  ⟨by decide,
   C8_nonbrowser s_server none none false false domInit (by decide) (by decide)⟩

/-- Claim C9: with ExplicitChoice unset, a change notification with a true
dark boolean makes `mode` dark, and a subsequent one with a false dark
boolean makes it light, with no other call in between. -/
theorem C9_os_reactivity (s : DarkModeState)
    (hm : s.modeStore = none) (_hb : s.isBrowser = true) :
    (s.changeEvent true).mode = Mode.dark
    ∧ ((s.changeEvent true).changeEvent false).mode = Mode.light := by
  constructor
  · rw [mode_def, changeEvent_modeStore, changeEvent_prefersStore, hm]
    rfl
  · rw [mode_def, changeEvent_modeStore, changeEvent_modeStore,
      changeEvent_prefersStore, hm]
    rfl

/-- Witness for C9 at the fresh browser state. -/
theorem C9_os_reactivity_witness :
    (s_fresh.changeEvent true).mode = Mode.dark
    ∧ ((s_fresh.changeEvent true).changeEvent false).mode = Mode.light :=
  C9_os_reactivity s_fresh (by decide) (by decide)

theorem applyOp_prefersStore_ne_none (s : DarkModeState) (op : Op)
    (h : s.prefersStore ≠ none) : (s.applyOp op).prefersStore ≠ none := by
  cases op with
  | setMode m =>
    show (s.setMode m).prefersStore ≠ none
    rw [setMode_prefersStore]
    exact h
  | toggle =>
    show s.toggle.prefersStore ≠ none
    rw [toggle_prefersStore]
    exact h
  | change b =>
    show (s.changeEvent b).prefersStore ≠ none
    rw [changeEvent_prefersStore]
    simp

theorem applyOps_prefersStore_ne_none (s : DarkModeState) (ops : List Op)
    (h : s.prefersStore ≠ none) : (s.applyOps ops).prefersStore ≠ none := by
  induction ops generalizing s with
  | nil => exact h
  | cons op ops ih => exact ih _ (applyOp_prefersStore_ne_none s op h)

/-- Claim C10: the change handler derives OsPreference solely from the
event's dark boolean (true gives dark, false gives light), so after a first
notification OsPreference is set and stays set under every later operation,
unlike the initial read, which can yield unset; and once set with
ExplicitChoice still unset, the resolved mode equals the notified value (so
the default mode no longer matters). -/
theorem C10_prefers_never_unset (s : DarkModeState) (b : Bool)
    (ops : List Op) (_hb : s.isBrowser = true) :
    (s.changeEvent b).prefersStore =
      some (if b then Mode.dark else Mode.light)
    ∧ ((s.changeEvent b).applyOps ops).prefersStore ≠ none
    ∧ getPrefersMode true false false = none
    ∧ (s.modeStore = none →
        (s.changeEvent b).mode = (if b then Mode.dark else Mode.light)) := by
  refine ⟨changeEvent_prefersStore s b, ?_, rfl, ?_⟩
  · refine applyOps_prefersStore_ne_none _ ops ?_
    rw [changeEvent_prefersStore]
    simp
  · intro hm
    rw [mode_def, changeEvent_modeStore, changeEvent_prefersStore, hm]
    rfl

/-- Witness for C10 at the fresh browser state, with a toggle and an
explicit reset following the notification. -/
theorem C10_prefers_never_unset_witness :
    (s_fresh.changeEvent true).prefersStore = some Mode.dark
    ∧ ((s_fresh.changeEvent true).applyOps
        [Op.toggle, Op.setMode none]).prefersStore ≠ none
    ∧ getPrefersMode true false false = none
    ∧ (s_fresh.changeEvent true).mode = Mode.dark := by
  have h := C10_prefers_never_unset s_fresh true [Op.toggle, Op.setMode none]
    (by decide)
  exact ⟨h.1, h.2.1, h.2.2.1, h.2.2.2 (by decide)⟩
